import Mathlib

/-!
Verification of the semi-structured text extraction subsystem of
quality_report_generator.py (sdb-quality-dashboard).

The parsers `_parse_text_prbs`, `_parse_text_bugs`, `_parse_salesforce_issues`,
`_parse_security_issues` and `_parse_ss_security_bugs` are embedded as pure
Lean functions over the document text.  Python strings are modelled as Lean
`String`s, but every string operation is re-implemented structurally over
`List Char` (mirroring the Python semantics of strip/split/in/startswith/
replace and of the concrete regular expressions used by the source), so that
all definitions are executable by the kernel.  `datetime.now()` is modelled
as an explicit `today` argument: it is the only environmental input of the
parsers.
-/

namespace QR

/-! ## Python string primitives on lists of characters -/

/-- Whitespace characters stripped by Python `str.strip()` (ASCII range). -/
def isPyWS (c : Char) : Bool :=
  c = ' ' || c = '\t' || c = '\n' || c = '\r' || c = '\x0b' || c = '\x0c'

/-- Python `str.strip()` on the character list. -/
def pyStripL (l : List Char) : List Char :=
  ((l.dropWhile isPyWS).reverse.dropWhile isPyWS).reverse

/-- Python `str.strip()`. -/
def pyStrip (s : String) : String := String.mk (pyStripL s.data)

/-- Split a character list at every occurrence of `sep` (Python `str.split(sep)`). -/
def splitOnChar (sep : Char) : List Char → List (List Char)
  | [] => [[]]
  | c :: t =>
    let r := splitOnChar sep t
    if c = sep then [] :: r
    else
      match r with
      | [] => [[c]]
      | x :: xs => (c :: x) :: xs

/-- `content.split('\n')` of the Python parsers. -/
def pyLines (content : String) : List String :=
  (splitOnChar '\n' content.data).map String.mk

/-- Python `str.lower()` (ASCII case folding, as used by the source). -/
def pyLower (s : String) : String := String.mk (s.data.map Char.toLower)

/-- Python `str.split()` with no argument: whitespace-separated tokens. -/
def pyWords (s : String) : List String :=
  ((splitOnChar ' ' (s.data.map (fun c => if isPyWS c then ' ' else c))).filter
    (fun w => w ≠ [])).map String.mk

/-- Substring test on character lists (Python `pat in s`). -/
def strContainsL (pat : List Char) : List Char → Bool
  | [] => pat.isEmpty
  | c :: t => pat.isPrefixOf (c :: t) || strContainsL pat t

/-- Python `pat in s`. -/
def strContains (s pat : String) : Bool := strContainsL pat.data s.data

/-- Python `s.startswith(pat)`. -/
def pyStarts (s pat : String) : Bool := pat.data.isPrefixOf s.data

/-- Python `s.endswith(pat)`. -/
def pyEnds (s pat : String) : Bool := pat.data.isSuffixOf s.data

/-- Python `c in s` for a single character. -/
def hasChar (s : String) (c : Char) : Bool := s.data.any (fun x => x = c)

/-- Everything after the first occurrence of `c` (used for `split(sep, 1)[1]`). -/
def afterChar (c : Char) : List Char → List Char
  | [] => []
  | x :: t => if x = c then t else afterChar c t

/-- Everything before the first occurrence of `c` (used for `split(sep)[0]`). -/
def beforeChar (c : Char) (l : List Char) : List Char :=
  l.takeWhile (fun x => x ≠ c)

/-- Python `s.split(sep, 1)[1]` for a one-character separator
(callers guard on the separator being present). -/
def afterCharS (s : String) (c : Char) : String := String.mk (afterChar c s.data)

/-- Python `s.split(sep)[0]` for a one-character separator. -/
def beforeCharS (s : String) (c : Char) : String := String.mk (beforeChar c s.data)

/-- Fuel-driven replacement of all non-overlapping occurrences of `pat`
(Python `str.replace(pat, rep)`); fuel `l.length` always suffices because
every step consumes at least one character of the scanned list. -/
def replaceFuel (pat rep : List Char) : Nat → List Char → List Char
  | 0, l => l
  | _ + 1, [] => []
  | f + 1, c :: t =>
    if pat ≠ [] ∧ pat.isPrefixOf (c :: t) then
      rep ++ replaceFuel pat rep f ((c :: t).drop pat.length)
    else c :: replaceFuel pat rep f t

/-- Python `s.replace(pat, rep)`. -/
def pyReplace (s pat rep : String) : String :=
  String.mk (replaceFuel pat.data rep.data s.data.length s.data)

/-- Python `sep.join(items)`. -/
def pyJoin (sep : String) : List String → String
  | [] => ""
  | [x] => x
  | x :: y :: t => x ++ sep ++ pyJoin sep (y :: t)

/-- Python `s[:n]` (character slice). -/
def pyTake (s : String) (n : Nat) : String := String.mk (s.data.take n)

/-! ## Leftmost regex-style matchers

Each `...At` function decides a match anchored at the head of the character
list; `scanFirst` turns it into the leftmost-match search of `re.search`. -/

/-- Leftmost match: try the anchored matcher at every position, left to right. -/
def scanFirst {α : Type} (f : List Char → Option α) : List Char → Option α
  | [] => none
  | c :: t =>
    match f (c :: t) with
    | some a => some a
    | none => scanFirst f t

/-- Consume exactly `n` ASCII digits. -/
def takeExactDigits : Nat → List Char → Option (List Char × List Char)
  | 0, l => some ([], l)
  | _ + 1, [] => none
  | n + 1, c :: t =>
    if c.isDigit then (takeExactDigits n t).map (fun p => (c :: p.1, p.2)) else none

/-- Greedy run of digits and the remainder. -/
def spanDigits (l : List Char) : List Char × List Char :=
  (l.takeWhile Char.isDigit, l.dropWhile Char.isDigit)

/-- Anchored match for `W-\d{8}` (the group truncates to the first 8 digits). -/
def w8At : List Char → Option String
  | 'W' :: '-' :: r =>
    (takeExactDigits 8 r).map (fun p => String.mk ('W' :: '-' :: p.1))
  | _ => none

/-- `re.search(r'W-\d{8}', s)` returning `group()`. -/
def findW8 (s : String) : Option String := scanFirst w8At s.data

/-- Anchored match for `PRB-\d{7}`. -/
def prb7At : List Char → Option String
  | 'P' :: 'R' :: 'B' :: '-' :: r =>
    (takeExactDigits 7 r).map (fun p => String.mk ('P' :: 'R' :: 'B' :: '-' :: p.1))
  | _ => none

/-- `re.search(r'PRB-\d{7}', s)` returning `group()`. -/
def findPRB7 (s : String) : Option String := scanFirst prb7At s.data

/-- Anchored match for `P([0-4])\(\d+\)`, returning the tier digit (group 1). -/
def pTierAt : List Char → Option Char
  | 'P' :: d :: '(' :: r =>
    if ['0', '1', '2', '3', '4'].contains d then
      match spanDigits r with
      | ([], _) => none
      | (_ :: _, rest) =>
        match rest with
        | ')' :: _ => some d
        | _ => none
    else none
  | _ => none

/-- `re.search(r'P([0-4])\(\d+\)', s)` returning group 1. -/
def findPTier (s : String) : Option Char := scanFirst pTierAt s.data

/-- Anchored match for `P[1-4]`. -/
def p14At : List Char → Option String
  | 'P' :: d :: _ =>
    if ['1', '2', '3', '4'].contains d then some (String.mk ['P', d]) else none
  | _ => none

/-- `re.search(r'P[1-4]', s)` returning `group()`. -/
def findP14 (s : String) : Option String := scanFirst p14At s.data

/-- Greedy `(\.\d+)*` tail of the version pattern, fuel-driven (each unit of
fuel consumes at least two characters, so fuel = list length suffices). -/
def dotGroups : Nat → List Char → List Char
  | 0, _ => []
  | f + 1, l =>
    match l with
    | '.' :: rest =>
      match spanDigits rest with
      | ([], _) => []
      | (ds, r2) => '.' :: ds ++ dotGroups f r2
    | _ => []

/-- Anchored match for `sdb\.\d+(\.\d+)*`. -/
def sdbVerAt : List Char → Option String
  | 's' :: 'd' :: 'b' :: '.' :: r =>
    match spanDigits r with
    | ([], _) => none
    | (ds, r2) => some (String.mk ('s' :: 'd' :: 'b' :: '.' :: ds ++ dotGroups r2.length r2))
  | _ => none

/-- `re.search(r'sdb\.\d+(\.\d+)*', s)` returning `group()`. -/
def findSdbVer (s : String) : Option String := scanFirst sdbVerAt s.data

/-- `\d{1,2}/`: one or two digits followed by a slash (greedy, with the
backtracking semantics of the regex engine), returning the digits and the
remainder after the slash. -/
def numSlashAt : List Char → Option (List Char × List Char)
  | a :: rest =>
    if a.isDigit then
      match rest with
      | b :: r2 =>
        if b.isDigit then
          match r2 with
          | '/' :: r3 => some ([a, b], r3)
          | _ => none
        else if b = '/' then some ([a], r2) else none
      | [] => none
    else none
  | [] => none

/-- Anchored match for `(\d{1,2}/\d{1,2}/\d{4})`: month, day and year digit
groups. -/
def dateAt (l : List Char) : Option (List Char × List Char × List Char) :=
  match numSlashAt l with
  | none => none
  | some (ms, r1) =>
    match numSlashAt r1 with
    | none => none
    | some (ds, r2) =>
      match takeExactDigits 4 r2 with
      | none => none
      | some (ys, _) => some (ms, ds, ys)

/-- `re.search(r'(\d{1,2}/\d{1,2}/\d{4})', s)` returning the three digit
groups of the match. -/
def findDate (s : String) : Option (List Char × List Char × List Char) :=
  scanFirst dateAt s.data

/-- The alternation `(c|cpp|h|java|py)` of the file-path pattern; `c` is
tried before `cpp`, so a `.cpp` suffix matches as `c` (Python alternation
semantics). -/
def extTake : List Char → Option String
  | 'c' :: _ => some "c"
  | 'h' :: _ => some "h"
  | 'j' :: 'a' :: 'v' :: 'a' :: _ => some "java"
  | 'p' :: 'y' :: _ => some "py"
  | _ => none

/-- One backtracking attempt of `/[^()]+\.(c|cpp|h|java|py)` with `k`
characters consumed by `[^()]+`. -/
def pathCheck (rest : List Char) (k : Nat) : Option String :=
  let pre := rest.take k
  if 0 < k ∧ pre.length = k ∧ pre.all (fun c => c ≠ '(' ∧ c ≠ ')') ∧
      (rest.drop k).take 1 = ['.'] then
    (extTake (rest.drop (k + 1))).map
      (fun e => String.mk ('/' :: pre) ++ "." ++ e)
  else none

/-- Greedy backtracking over the length consumed by `[^()]+` (longest first). -/
def pathTryLen (rest : List Char) : Nat → Option String
  | 0 => none
  | k + 1 =>
    match pathCheck rest (k + 1) with
    | some s => some s
    | none => pathTryLen rest k

/-- Anchored match for `/[^()]+\.(c|cpp|h|java|py)`. -/
def pathAt : List Char → Option String
  | '/' :: rest => pathTryLen rest rest.length
  | _ => none

/-- `re.search(r'/[^()]+\.(c|cpp|h|java|py)', s)` returning `group()`. -/
def findPath (s : String) : Option String := scanFirst pathAt s.data

/-! ## Dates: `datetime.strptime(_, '%m/%d/%Y')` / `strftime('%Y-%m-%d')` -/

/-- Numeric value of a digit string. -/
def digitsVal (l : List Char) : Nat := l.foldl (fun a c => 10 * a + (c.toNat - 48)) 0

/-- Gregorian leap year (as in Python's datetime). -/
def isLeap (y : Nat) : Bool := (y % 4 = 0 ∧ y % 100 ≠ 0) || y % 400 = 0

/-- Days in a month (as validated by `datetime.strptime`). -/
def daysInMonth (m y : Nat) : Nat :=
  if m = 2 then (if isLeap y then 29 else 28)
  else if m = 4 ∨ m = 6 ∨ m = 9 ∨ m = 11 then 30
  else 31

/-- Whether `strptime('%m/%d/%Y')` accepts month/day/year. -/
def isValidDate (m d y : Nat) : Bool :=
  1 ≤ y ∧ y ≤ 9999 ∧ 1 ≤ m ∧ m ≤ 12 ∧ 1 ≤ d ∧ d ≤ daysInMonth m y

/-- Left pad a string to two characters with zeros (Python `zfill(2)`). -/
def zfill2 (s : String) : String :=
  if s.length ≥ 2 then s else if s.length = 1 then "0" ++ s else "00"

/-- `strftime('%Y-%m-%d')` of a validated date. -/
def isoOf (m d y : Nat) : String :=
  Nat.repr y ++ "-" ++ zfill2 (Nat.repr m) ++ "-" ++ zfill2 (Nat.repr d)

/-- One date-extraction step of `_parse_text_prbs` / `_parse_text_bugs`:
match the date pattern, convert via strptime, and silently keep the current
value when the conversion raises (`except: pass`). -/
def prbDateUpd (cur : String) (line : String) : String :=
  match findDate line with
  | some (ms, ds, ys) =>
    let m := digitsVal ms
    let d := digitsVal ds
    let y := digitsVal ys
    if isValidDate m d y then isoOf m d y else cur
  | none => cur

/-- One date-extraction step of `_parse_salesforce_issues`: the matched text
is split on `/` and zero-padded with no validation at all. -/
def sfDateUpd (cur : String) (line : String) : String :=
  match findDate line with
  | some (ms, ds, ys) =>
    String.mk ys ++ "-" ++ zfill2 (String.mk ms) ++ "-" ++ zfill2 (String.mk ds)
  | none => cur

/-! ## Context windows -/

/-- `max(0, i - before)` over Python ints, landing in `Nat`. -/
def ctxStart (i before : Nat) : Nat := i - before

/-- `min(len(lines), i + after)`. -/
def ctxEnd (len i after : Nat) : Nat := min len (i + after)

/-- `range(s, e)` of the window scans. -/
def winRange (s e : Nat) : List Nat := List.range' s (e - s)

/-! ## Record assembler: dedup keyed on the identifier, first occurrence wins -/

/-- The `seen_ids` loop shared by `_parse_text_prbs`, `_parse_text_bugs` and
`_parse_salesforce_issues`: keep a record only if its key was not seen yet. -/
def dedupByGo {α : Type} (key : α → String) (seen : List String) : List α → List α
  | [] => []
  | x :: xs =>
    if key x ∈ seen then dedupByGo key seen xs
    else x :: dedupByGo key (key x :: seen) xs

/-- Deduplication by identifier, first occurrence wins. -/
def dedupBy {α : Type} (key : α → String) (l : List α) : List α := dedupByGo key [] l

/-- Anchor scan shared by `_parse_salesforce_issues`, `_parse_security_issues`
and `_parse_text_bugs`: every line whose stripped text matches `W-\d{8}`,
with its line index, in document order (no dedup at this stage). -/
def wAnchors (lines : List String) : List (Nat × String) :=
  lines.enum.filterMap (fun p => (findW8 (pyStrip p.2)).map (fun w => (p.1, w)))

/-! ## `_parse_ss_security_bugs` (ss.txt Coverity format, section-state tracker) -/

/-- One output record of `_parse_ss_security_bugs` (the source builds a dict
with exactly these keys). -/
structure SSSecurityBug where
  id : String
  title : String
  priority : String
  severity : String
  status : String
  component : String
  assignee : String
  build_version : String
  description : String
  type : String
  issue_category : String
deriving DecidableEq, Repr, Inhabited

/-- `_extract_issue_category`: category token lookup in the description. -/
def extract_issue_category (description : String) : String :=
  if strContains description "RESOURCE_LEAK" then "Resource Leak"
  else if strContains description "ARRAY_VS_SINGLETON" then "Array vs Singleton"
  else if strContains description "OVERRUN" then "Buffer Overrun"
  else if strContains description "USE_AFTER_FREE" then "Use After Free"
  else if strContains description "UNINIT" then "Uninitialized Variable"
  else if strContains description "NO_EFFECT" then "No Effect"
  else "Other"

/-- The priority/severity label stamped from the running priority tier. -/
def ssPrioLabel (cp : String) : String :=
  cp ++ "-" ++ (if cp = "P0" ∨ cp = "P1" then "Critical" else if cp = "P2" then "Medium" else "Low")

/-- Header update for priority lines such as `P4(16)`. -/
def ssPrioUpd (cur : String) (line : String) : String :=
  let pm := beforeCharS line '('
  if pm ∈ ["P0", "P1", "P2", "P3", "P4"] then pm else cur

/-- Header update for team lines such as `Sayonara Data Management(16)`. -/
def ssTeamUpd (cur : String) (line : String) : String :=
  let tp := pyStrip (beforeCharS line '(')
  if tp.length > 5 ∧ tp ∉ ["Subtotal", "Total"] then tp else cur

/-- Python `lines[i + k].strip() or default` for the positional fields. -/
def ssFieldAt (nxt : List String) (k : Nat) (d : String) : String :=
  if k < nxt.length then
    let v := pyStrip (nxt.getD k "")
    if v = "" then d else v
  else d

/-- The record emitted for an anchor line: stamped with the running team and
priority at the moment of encounter, with the next four lines consumed as
build version, assignee, status and description. -/
def ssRecordAt (team prio wid : String) (nxt : List String) : SSSecurityBug :=
  let desc := ssFieldAt nxt 3 "Security Issue"
  { id := wid
    title := desc
    priority := ssPrioLabel prio
    severity := ssPrioLabel prio
    status := ssFieldAt nxt 2 "Unknown"
    component := team
    assignee := ssFieldAt nxt 1 "Unknown"
    build_version := ssFieldAt nxt 0 "Unknown"
    description := desc
    type := "security"
    issue_category := extract_issue_category desc }

/-- The scan loop of `_parse_ss_security_bugs`: the `skip` counter models the
`i += 4` cursor jump past the four consumed lines (they are scanned neither
as headers nor as anchors, exactly as in the source). -/
def ssGo (team prio : String) (skip : Nat) : List String → List SSSecurityBug
  | [] => []
  | l :: rest =>
    match skip with
    | s + 1 => ssGo team prio s rest
    | 0 =>
      let line := pyStrip l
      if pyStarts line "P" && hasChar line '(' then
        ssGo team (ssPrioUpd prio line) 0 rest
      else if hasChar line '(' && pyEnds line ")" && !pyStarts line "W-" then
        ssGo (ssTeamUpd team line) prio 0 rest
      else if pyStarts line "W-" then
        ssRecordAt team prio line (rest.take 4) :: ssGo team prio 4 rest
      else ssGo team prio 0 rest

/-- `_parse_ss_security_bugs`. -/
def parse_ss_security_bugs (content : String) : List SSSecurityBug :=
  if content = "" then [] else ssGo "Unknown" "P4" 0 (pyLines content)

/-! ## `_parse_salesforce_issues` (CI / LeftShift / ABS exports) -/

/-- One issue of `_parse_salesforce_issues` (the source builds a dict with
exactly these keys). -/
structure SalesforceIssue where
  work_id : String
  team : String
  priority : String
  subject : String
  status : String
  build_version : String
  created_date : String
deriving DecidableEq, Repr, Inhabited

def sf_team_patterns : List String :=
  ["Sayonara Data Management", "Sayonara Foundation Services",
   "Sayonara TxP", "SDB Catalog Services", "SDB Engine Health",
   "SDB Query Proc", "SDBStore", "SDB Production Readiness"]

def sf_status_patterns : List String :=
  ["New", "In Progress", "Triaged", "Ready for Review", "Waiting"]

/-- Team extraction step of `_parse_salesforce_issues`: the loop over
`team_patterns` has NO break, so every matching pattern overwrites. -/
def sfTeamUpd (cur line : String) : String :=
  sf_team_patterns.foldl (fun acc p => if strContains line p then p else acc) cur

/-- Status extraction step (substring match over the list, no break). -/
def sfStatusUpd (cur line : String) : String :=
  sf_status_patterns.foldl (fun acc p => if strContains line p then p else acc) cur

/-- Priority extraction step (`re.search(r'P[1-4]')`, overwrite on match). -/
def sfPrioUpd (cur line : String) : String :=
  match findP14 line with
  | some p => p
  | none => cur

/-- Build-version extraction step (`re.search(r'sdb\.\d+(\.\d+)*')`). -/
def sfVerUpd (cur line : String) : String :=
  match findSdbVer line with
  | some v => v
  | none => cur

/-- Subject extraction step: only the line directly after the anchor, if long
enough and not a subtotal marker, truncated to 150 characters. -/
def sfSubjUpd (i : Nat) (cur : String) (j : Nat) (line : String) : String :=
  if j = i + 1 ∧ line.length > 10 ∧ ¬ pyStarts line "Subtotal" then pyTake line 150 else cur

/-- The issue assembled for the anchor at line `i` of
`_parse_salesforce_issues`: window `range(max(0, i-15), min(len, i+10))`,
every classifier a forward fold over the stripped window lines. -/
def sfIssueAt (lines : List String) (i : Nat) (wid today : String) : SalesforceIssue :=
  let win := winRange (ctxStart i 15) (ctxEnd lines.length i 10)
  let cl := fun j => pyStrip (lines.getD j "")
  { work_id := wid
    team := win.foldl (fun acc j => sfTeamUpd acc (cl j)) "Unknown"
    priority := win.foldl (fun acc j => sfPrioUpd acc (cl j)) "P2"
    subject := win.foldl (fun acc j => sfSubjUpd i acc j (cl j)) "Unknown Issue"
    status := win.foldl (fun acc j => sfStatusUpd acc (cl j)) "New"
    build_version := win.foldl (fun acc j => sfVerUpd acc (cl j)) "Unknown"
    created_date := win.foldl (fun acc j => sfDateUpd acc (cl j)) today }

/-- All records of `_parse_salesforce_issues` before the final dedup, one per
anchor in document order. -/
def pre_salesforce_issues (content today : String) : List SalesforceIssue :=
  let lines := pyLines content
  (wAnchors lines).map (fun p => sfIssueAt lines p.1 p.2 today)

/-- `_parse_salesforce_issues` (the `issue_type` argument is unused by the
parsing logic, as in the source; `today` models `datetime.now()`). -/
def parse_salesforce_issues (content issue_type today : String) : List SalesforceIssue :=
  dedupBy (fun r => r.work_id) (pre_salesforce_issues content today)

/-! ## `_parse_security_issues` (Coverity scan output) -/

structure SecurityIssue where
  work_id : String
  issue_category : String
  file_path : String
  assigned_to : String
  status : String
  build_version : String
  team : String
deriving DecidableEq, Repr, Inhabited

def security_categories : List String :=
  ["RESOURCE_LEAK", "OVERRUN", "USE_AFTER_FREE", "UNINIT", "NO_EFFECT", "ARRAY_VS_SINGLETON"]

/-- Category/path extraction step: the loop over `security_categories` has no
break, and the file path is re-extracted under every matching category. -/
def secCatUpd (cur : String × String) (line : String) : String × String :=
  security_categories.foldl
    (fun acc cat =>
      if strContains line cat then
        (cat,
         if hasChar line '/' then
           match findPath line with
           | some p => p
           | none => acc.2
         else acc.2)
      else acc) cur

/-- The assignee heuristic of `_parse_security_issues`: strictly after the
anchor, longer than 5 characters, not the literal `New`, not a version line,
containing a space, exactly two whitespace tokens, no blacklisted keyword. -/
def secAsgQual (i j : Nat) (line : String) : Bool :=
  decide (j > i) && decide (line.length > 5) && decide (line ≠ "New") &&
    !pyStarts line "sdb." && hasChar line ' ' && decide ((pyWords line).length = 2) &&
    !(["test", "error", "exception"].any (fun x => strContains (pyLower line) x))

/-- The assignee classifier of `_parse_security_issues` over the whole
window: the loop does not break, so every qualifying line overwrites. -/
def secAssigneeAt (lines : List String) (i : Nat) : String :=
  (winRange (ctxStart i 5) (ctxEnd lines.length i 8)).foldl
    (fun acc j =>
      if secAsgQual i j (pyStrip (lines.getD j "")) then pyStrip (lines.getD j "") else acc)
    "Unassigned"

/-- The record assembled for the anchor at line `i` of
`_parse_security_issues`: window `range(max(0, i-5), min(len, i+8))`; the
status default `New` is never updated by any classifier in the source. -/
def secIssueAt (lines : List String) (i : Nat) (wid : String) : SecurityIssue :=
  let win := winRange (ctxStart i 5) (ctxEnd lines.length i 8)
  let cl := fun j => pyStrip (lines.getD j "")
  let catPath := win.foldl (fun acc j => secCatUpd acc (cl j)) ("UNKNOWN", "")
  { work_id := wid
    issue_category := catPath.1
    file_path := catPath.2
    assigned_to := secAssigneeAt lines i
    status := "New"
    build_version := win.foldl (fun acc j => sfVerUpd acc (cl j)) "Unknown"
    team := win.foldl (fun acc j => if strContains (cl j) "Sayonara" then cl j else acc) "Security" }

/-- `_parse_security_issues`: one record per anchor, NO deduplication. -/
def parse_security_issues (content : String) : List SecurityIssue :=
  let lines := pyLines content
  (wAnchors lines).map (fun p => secIssueAt lines p.1 p.2)

/-! ## `_parse_text_bugs` (production bugs; 30-record cap before dedup)

The source's `priority_mapping` pre-pass is write-only state (never read
afterwards) and is therefore not modelled; the `p1_start`/`p1_end`/`p2_start`
/`p2_end` pre-pass is live and modelled below. -/

structure BugItem where
  id : String
  title : String
  severity : String
  status : String
  description : String
  component : String
  reported_date : String
deriving DecidableEq, Repr, Inhabited

def bug_team_patterns : List String :=
  ["Sayonara TxP", "SDB Query Proc Optimizer", "Sayonara Data Management",
   "Sayonara Foundation Services", "SDBStore", "SDB QP Execution",
   "SDB TxP Work Queue", "SDBStore Work Queue"]

def bug_status_patterns : List String :=
  ["New", "In Progress", "Triaged", "Open", "Resolved", "Closed"]

def bug_tech_words : List String := ["sdb", "queue", "falcon", "usa", "ind", "deu", "gbr"]

/-- Inner team loop of `_parse_text_bugs`: iterate the enumerated list and
break at the FIRST pattern contained in the line. -/
def bugTeamGo (line cur : String) : List String → String
  | [] => cur
  | t :: ts => if strContains line t then t else bugTeamGo line cur ts

/-- Team/component extraction step of `_parse_text_bugs` (break at first
list match). -/
def bugTeamUpd (cur line : String) : String := bugTeamGo line cur bug_team_patterns

/-- Status extraction step of `_parse_text_bugs`: exact equality against the
status list (the loop breaks at the first equal entry, which is equivalent to
a membership test). -/
def bugStatusUpd (cur line : String) : String :=
  if line ∈ bug_status_patterns then line else cur

/-- The `p1_start`/`p1_end`/`p2_start`/`p2_end` section pre-pass: literal
substring scans for `P1(2)` and `P2(11)` over the raw lines, then the
boundary fix-ups. -/
def bugSections (lines : List String) : Nat × Nat × Nat × Nat :=
  let s := lines.enum.foldl
    (fun (s : Nat × Nat × Nat) p =>
      if strContains p.2 "P1(2)" then (p.1, s.2.1, s.2.2)
      else if strContains p.2 "P2(11)" then
        (s.1, if s.1 > 0 then p.1 - 1 else s.2.1, p.1)
      else s) (0, 0, 0)
  let p1s := s.1
  let p2s := s.2.2
  let p2e := if p2s > 0 then lines.length else 0
  let p1e := if s.2.1 = 0 ∧ p1s > 0 then (if p2s > 0 then p2s - 1 else p1s + 30) else s.2.1
  (p1s, p1e, p2s, p2e)

/-- Severity assignment from the section an anchor's line index falls in. -/
def bugSeverity (sec : Nat × Nat × Nat × Nat) (i : Nat) : String :=
  if sec.1 ≤ i ∧ i ≤ sec.2.1 then "P1-High"
  else if sec.2.2.1 ≤ i ∧ i ≤ sec.2.2.2 then "P2-Medium"
  else "P2-Medium"

/-- The assignee heuristic of `_parse_text_bugs`: more than two lines past
the anchor, not empty, not a dash, exactly two whitespace tokens, no
blacklisted technical keyword. -/
def bugAsgQual (i j : Nat) (line : String) : Bool :=
  decide (j > i + 2) && decide (line ≠ "") && decide (line ≠ "-") &&
    decide ((pyWords line).length = 2) &&
    !(bug_tech_words.any (fun t => strContains (pyLower line) t))

/-- The assignee classifier of `_parse_text_bugs` over the whole window (no
break: every qualifying line overwrites). -/
def bugAssigneeAt (lines : List String) (i : Nat) : String :=
  (winRange (ctxStart i 3) (ctxEnd lines.length i 8)).foldl
    (fun acc j =>
      if bugAsgQual i j (pyStrip (lines.getD j "")) then pyStrip (lines.getD j "") else acc)
    "Unknown"

/-- Title extraction: the line directly after the anchor, when long enough,
truncated to 80 characters for `[EA][PROD]` lines and 100 otherwise. -/
def bugTitleAt (lines : List String) (i : Nat) : String :=
  if i + 1 < lines.length then
    let pt := pyStrip (lines.getD (i + 1) "")
    if pt ≠ "" ∧ pt ≠ "-" ∧ pt.length > 10 then
      if strContains pt "[EA][PROD]" then
        pyTake pt 80 ++ (if pt.length > 80 then "..." else "")
      else pyTake pt 100 ++ (if pt.length > 100 then "..." else "")
    else "Unknown Issue"
  else "Unknown Issue"

/-- The bug assembled for the anchor at line `i` of `_parse_text_bugs`:
window `range(max(0, i-3), min(len, i+8))`. -/
def bugItemAt (lines : List String) (sec : Nat × Nat × Nat × Nat) (i : Nat)
    (wid today : String) : BugItem :=
  let win := winRange (ctxStart i 3) (ctxEnd lines.length i 8)
  let cl := fun j => pyStrip (lines.getD j "")
  let customer := win.foldl
    (fun acc j => if strContains (cl j) "SDBFalcon" then cl j else acc) "Unknown"
  { id := wid
    title := bugTitleAt lines i
    severity := bugSeverity sec i
    status := win.foldl (fun acc j => bugStatusUpd acc (cl j)) "Open"
    description := "Assigned: " ++ bugAssigneeAt lines i ++ ", Customer: " ++ customer
    component := win.foldl (fun acc j => bugTeamUpd acc (cl j)) "Unknown"
    reported_date := win.foldl (fun acc j => prbDateUpd acc (cl j)) today }

/-- All assembled bugs before the cap and dedup, one per anchor in document
order. -/
def pre_text_bugs (content today : String) : List BugItem :=
  let lines := pyLines content
  let sec := bugSections lines
  (wAnchors lines).map (fun p => bugItemAt lines sec p.1 p.2 today)

/-- `_parse_text_bugs`: the `bugs[:30]` cap is applied BEFORE the `seen_ids`
dedup, exactly as in the source. -/
def parse_text_bugs (content today : String) : List BugItem :=
  dedupBy (fun b => b.id) ((pre_text_bugs content today).take 30)

/-! ## `_parse_text_prbs` (problem reports)

Notes on dead state in the source, not modelled because it cannot reach any
output field: the team assignments of the first context pass and of the
`Team:` override pass are unconditionally overwritten by the final
`team = "Unknown"` re-extraction block before any use; `description` stays
the empty string, so the record's description always takes the else-branch
of its conditional; the `resolution_lines`/`steps_lines` accumulators are
never read.  The stale-variable effect of the resolution block on
`how_resolved` (it assigns the leaked loop variable `line_content`) IS
modelled, in `prbHowResolvedAt`. -/

structure PRBItem where
  id : String
  title : String
  priority : String
  status : String
  description : String
  created_date : String
  what_happened : String
  proximate_cause : String
  how_resolved : String
  next_steps : String
  user_experience : String
  team : String
  customer_impact : String
deriving DecidableEq, Repr, Inhabited

/-- The tier-to-label elif chain shared by both priority checks of
`_parse_text_prbs` (an unmatched digit leaves the current value). -/
def tierUpd (cur : String) (d : Char) : String :=
  if d = '0' then "P0-Critical"
  else if d = '1' then "P1-High"
  else if d = '2' then "P2-Medium"
  else if d = '3' then "P3-Low"
  else if d = '4' then "P4-Minimal"
  else cur

/-- Priority classification of `_parse_text_prbs`: both checks inspect ONLY
the line directly before the anchor (`lines[i-1]`), first the parenthesized
pattern `P([0-4])\(\d+\)`, then the bare token check, which overwrites. -/
def prbPriorityAt (lines : List String) (i : Nat) : String :=
  let p1 :=
    if 0 < i then
      match findPTier (pyStrip (lines.getD (i - 1) "")) with
      | some d => tierUpd "Medium" d
      | none => "Medium"
    else "Medium"
  if 0 < i then
    let pl := pyStrip (lines.getD (i - 1) "")
    if pl ∈ ["P0", "P1", "P2", "P3", "P4"] then tierUpd p1 (pl.data.getD 1 ' ') else p1
  else p1

/-- Problem-state/status step of the first context pass (the two fields are
always assigned together). -/
def prbStateUpd (cur : String × String) (line : String) : String × String :=
  if line = "Analysis Complete" then ("Analysis Complete", "Analysis Complete")
  else if line ∈ ["Waiting 3rd Party", "Open", "Resolved", "In Progress"] then (line, line)
  else cur

/-- (problem_state, status) after the first context pass over
`range(max(0, i-5), min(len, i+50))`. -/
def prbStatePair (lines : List String) (i : Nat) : String × String :=
  (winRange (ctxStart i 5) (ctxEnd lines.length i 50)).foldl
    (fun acc j => prbStateUpd acc (pyStrip (lines.getD j ""))) ("Unknown", "Open")

/-- Customer-impact step of the first context pass. -/
def prbImpactUpd (cur line : String) : String :=
  if strContains line "Feature degradation / disruption (internal service impact)" then
    "Feature degradation / disruption (internal service impact)"
  else if line ∈ ["Performance degradation (general)", "Service unavailable", "Data loss"] then line
  else cur

/-- Customer impact after the first context pass. -/
def prbImpact1 (lines : List String) (i : Nat) : String :=
  (winRange (ctxStart i 5) (ctxEnd lines.length i 50)).foldl
    (fun acc j => prbImpactUpd acc (pyStrip (lines.getD j ""))) "Unknown"

/-- Created date after the first context pass (default `datetime.now()`,
modelled by `today`; strptime failures keep the accumulator). -/
def prbCreatedAt (lines : List String) (i : Nat) (today : String) : String :=
  (winRange (ctxStart i 5) (ctxEnd lines.length i 50)).foldl
    (fun acc j => prbDateUpd acc (pyStrip (lines.getD j ""))) today

/-- The `all_lines` window `range(max(0, i-20), min(len, i+50))` of the
narrative passes (these passes read the RAW, unstripped lines). -/
def prbAllWin (lines : List String) (i : Nat) : List Nat :=
  winRange (ctxStart i 20) (ctxEnd lines.length i 50)

/-- User-experience pass: first line containing a marker; the split happens
only when the line has a colon, otherwise the break leaves the field empty. -/
def prbUserExpAt (lines : List String) (i : Nat) : String :=
  match (prbAllWin lines i).find?
      (fun j => strContains (lines.getD j "") "User Experience:" ||
                strContains (lines.getD j "") "Customer Experience") with
  | some j =>
    let cl := lines.getD j ""
    if hasChar cl ':' then
      let ue := pyStrip (afterCharS cl ':')
      if hasChar ue '|' then pyStrip (beforeCharS ue '|') else ue
    else ""
  | none => ""

/-- Final team re-extraction block: break at the first `SDB Archival` line;
a `Cloud` line past index 15 overwrites and the scan continues. -/
def prbTeamGo (lines : List String) (cur : String) : List Nat → String
  | [] => cur
  | j :: t =>
    let lc := pyStrip (lines.getD j "")
    if lc = "SDB Archival" then "SDB Archival"
    else if lc = "Cloud" ∧ j > 15 then prbTeamGo lines "Cloud" t
    else prbTeamGo lines cur t

/-- The team stamped into the record (the earlier team passes are dead). -/
def prbTeamAt (lines : List String) (i : Nat) : String :=
  prbTeamGo lines "Unknown" (prbAllWin lines i)

/-- Customer-impact override pass: a `Customer Impact` marker promotes the
NEXT line when it is substantial; the loop continues when the next line
fails the test. -/
def prbImpactOv (lines : List String) (d : String) : List Nat → String
  | [] => d
  | j :: t =>
    let cl := lines.getD j ""
    if strContains cl "Customer Impact" ∧ j < lines.length - 1 then
      let nl := pyStrip (lines.getD (j + 1) "")
      if nl ≠ "" ∧ nl.length > 5 ∧ ¬ strContains nl "External RCA" then nl
      else prbImpactOv lines d t
    else if strContains cl "Feature degradation / disruption (internal service impact)" then
      "Feature degradation / disruption (internal service impact)"
    else prbImpactOv lines d t

/-- The customer impact stamped into the record. -/
def prbImpactAt (lines : List String) (i : Nat) : String :=
  prbImpactOv lines (prbImpact1 lines i) (prbAllWin lines i)

def cause_skip_kws : List String :=
  ["How did we find out", "How was it Resolved", "Root Cause", "Next Steps"]

def cause_break_kws : List String := ["How did we find out", "How was it Resolved"]

/-- Collect the cause lines following a structured `Proximate Cause` marker
(the inner loop of the structured pass, with its break conditions). -/
def prbCauseCollect (lines : List String) : List Nat → List String
  | [] => []
  | k :: t =>
    let lc := pyStrip (lines.getD k "")
    if lc ≠ "" ∧ ¬ (cause_skip_kws.any (fun kw => strContains lc kw)) ∧
        ¬ pyStarts lc "Q:" ∧ ¬ pyStarts lc "A:" ∧ lc ≠ "​" then
      lc :: prbCauseCollect lines t
    else if cause_break_kws.any (fun kw => strContains lc kw) then []
    else prbCauseCollect lines t

/-- Structured proximate-cause pass: first line containing `Proximate Cause`
and a question mark; joins the collected lines from the next nine lines. -/
def prbCauseStructuredAt (lines : List String) (i : Nat) : String :=
  match (prbAllWin lines i).find?
      (fun j => strContains (lines.getD j "") "Proximate Cause" &&
                hasChar (lines.getD j "") '?') with
  | some j => pyJoin " " (prbCauseCollect lines (winRange (j + 1) (ctxEnd lines.length j 10)))
  | none => ""

def cause_words : List String := ["mismatch", "incompatible", "failure", "error"]

/-- Fallback proximate-cause pass (runs when the structured pass produced the
empty string). -/
def prbCauseFb (lines : List String) : List Nat → String
  | [] => ""
  | j :: t =>
    let lc := pyStrip (lines.getD j "")
    if pyStarts lc "Proximate Cause:" ∨
        (strContains lc "ERR release" ∧ strContains lc "version mismatch") ∨
        (strContains (pyLower lc) "caused" ∧
          cause_words.any (fun w => strContains (pyLower lc) w)) then
      if pyStarts lc "Proximate Cause:" then pyStrip (pyReplace lc "Proximate Cause:" "") else lc
    else prbCauseFb lines t

/-- The proximate cause stamped into the record. -/
def prbCauseAt (lines : List String) (i : Nat) : String :=
  let pc := prbCauseStructuredAt lines i
  if pc = "" then prbCauseFb lines (prbAllWin lines i) else pc

def wh_skip_kws : List String :=
  ["[THIS PRB IS MANAGED BY QUIP2GUS]", "User Experience:", "Impact Quantification:",
   "Q:", "A:", "https://", "Proximate Cause:", "Key Questions", "Created Date Time",
   "Select all rows", "Sorted by", "Select row for Drill Down"]

def wh_indicators : List String :=
  ["not running for sdb", "backup", "capacity constraints", "clusters in hyperforce"]

/-- What-happened fallback pass (the structured pass never assigns, so this
is the only writer): first substantial line matching the indicators. -/
def prbWhatAt (lines : List String) (i : Nat) : String :=
  match (prbAllWin lines i).find?
      (fun j =>
        let lc := pyStrip (lines.getD j "")
        decide (lc ≠ "") && decide (lc.length > 30) &&
        !(wh_skip_kws.any (fun kw => strContains lc kw)) &&
        (strContains lc "SDB Archival is not running" ||
         strContains lc "archival is not running" ||
         wh_indicators.any (fun ind => strContains (pyLower lc) ind))) with
  | some j => pyStrip (lines.getD j "")
  | none => ""

/-- Next-steps pass: numbered work-item lines collected over the WHOLE
document, joined with spaces. -/
def prbNextSteps (lines : List String) : String :=
  let ws := (List.range lines.length).filterMap
    (fun j =>
      let lc := pyStrip (lines.getD j "")
      if (pyStarts lc "1)" || pyStarts lc "2)" || pyStarts lc "3)") && strContains lc "W-" then
        some lc
      else none)
  if ws.isEmpty then "" else pyJoin " " ws

def hr_kws : List String := ["rolled back", "rollback", "restarted", "pods were restarted"]

def res_kws : List String :=
  ["how was it resolved", "rollback", "failover", "resolution involved", "self resolved"]

/-- First window line matching the how-resolved keyword pass. -/
def prbHr14At (lines : List String) (i : Nat) : Option Nat :=
  (prbAllWin lines i).find?
    (fun j =>
      let lc := pyStrip (lines.getD j "")
      hr_kws.any (fun kw => strContains (pyLower lc) kw) && decide (lc.length > 20))

/-- `how_resolved` as produced by the source, INCLUDING the stale-variable
effect of the resolution block: when some window line matches the resolution
keywords (on the raw lowercased line) and has a successor line in the
document, `how_resolved` is overwritten with the leaked `line_content`
variable, whose value after the keyword pass is the matched line if that
pass broke, and the stripped last window line otherwise. -/
def prbHowResolvedAt (lines : List String) (i : Nat) : String :=
  let hr14 :=
    match prbHr14At lines i with
    | some j => pyStrip (lines.getD j "")
    | none => ""
  let stale :=
    match prbHr14At lines i with
    | some j => pyStrip (lines.getD j "")
    | none => pyStrip (lines.getD (ctxEnd lines.length i 50 - 1) "")
  if (prbAllWin lines i).any
      (fun j => res_kws.any (fun kw => strContains (pyLower (lines.getD j "")) kw) &&
                decide (j + 1 < lines.length)) then
    stale
  else hr14

/-- The PRB item assembled for the anchor at line `i` of `_parse_text_prbs`. -/
def prbItemAt (lines : List String) (i : Nat) (pid today : String) : PRBItem :=
  let statePair := prbStatePair lines i
  let impact := prbImpactAt lines i
  let team := prbTeamAt lines i
  let title0 := "Incident " ++ pid
  let title :=
    if ¬ strContains title0 "PRB Retrospective" ∧ impact ≠ "Unknown" then pid ++ ": " ++ impact
    else if ¬ strContains title0 "PRB Retrospective" then
      pid ++ ": " ++ statePair.1 ++ " - " ++ team
    else title0
  { id := pid
    title := title
    priority := prbPriorityAt lines i
    status := statePair.2
    description := "Problem report " ++ pid ++ " managed by " ++ team
    created_date := prbCreatedAt lines i today
    what_happened := prbWhatAt lines i
    proximate_cause := prbCauseAt lines i
    how_resolved := prbHowResolvedAt lines i
    next_steps := prbNextSteps lines
    user_experience := prbUserExpAt lines i
    team := team
    customer_impact := impact }

/-- Anchor scan of `_parse_text_prbs`: lines whose stripped text matches
`PRB-\d{7}`. -/
def prbAnchors (lines : List String) : List (Nat × String) :=
  lines.enum.filterMap (fun p => (findPRB7 (pyStrip p.2)).map (fun w => (p.1, w)))

/-- All assembled PRB items before dedup, one per anchor in document order. -/
def pre_text_prbs (content today : String) : List PRBItem :=
  let lines := pyLines content
  (prbAnchors lines).map (fun p => prbItemAt lines p.1 p.2 today)

/-- `_parse_text_prbs` (`today` models `datetime.now()`). -/
def parse_text_prbs (content today : String) : List PRBItem :=
  dedupBy (fun r => r.id) (pre_text_prbs content today)

/-! ## Definitions modelled from the spec's words

These do NOT come from the source; they formalise what the spec claims, so
that refutations can compare them with the source behaviour above. -/

/-- Modelled from the spec (claim C4): a priority classifier that forward
scans the PRB context window and lets every match of either tier shape
(parenthesized or bare) unconditionally overwrite the accumulated value. -/
def specPrbPriorityScan (lines : List String) (i : Nat) : String :=
  (winRange (ctxStart i 5) (ctxEnd lines.length i 50)).foldl
    (fun acc j =>
      match findPTier (pyStrip (lines.getD j "")) with
      | some d => tierUpd acc d
      | none =>
        if pyStrip (lines.getD j "") ∈ ["P0", "P1", "P2", "P3", "P4"] then
          tierUpd acc ((pyStrip (lines.getD j "")).data.getD 1 ' ')
        else acc)
    "Medium"

/-- Modelled from the spec (claim C5): the first name in the enumerated team
list that occurs as a substring of ANY window line (first-match-in-list). -/
def specSfTeamFirstInList (lines : List String) (i : Nat) : String :=
  match sf_team_patterns.find?
      (fun t => (winRange (ctxStart i 15) (ctxEnd lines.length i 10)).any
        (fun j => strContains (pyStrip (lines.getD j "")) t)) with
  | some t => t
  | none => "Unknown"

/-- Modelled from the spec (claim C6): a context line is a person's name iff
it has exactly two whitespace-separated tokens, lies strictly after the
anchor line, and contains no blacklisted technical keyword. -/
def specNameLine (i j : Nat) (line : String) : Bool :=
  decide (j > i) && decide ((pyWords line).length = 2) &&
    !(["test", "error", "exception"].any (fun x => strContains (pyLower line) x))

/-! ## Projections used to state determinism up to the run date -/

/-- All fields of a `SalesforceIssue` except the defaulted `created_date`. -/
def sfShape (r : SalesforceIssue) : String × String × String × String × String × String :=
  (r.work_id, r.team, r.priority, r.subject, r.status, r.build_version)

/-- All fields of a `PRBItem` except the defaulted `created_date`. -/
def prbShape (r : PRBItem) :
    String × String × String × String × String × String × String × String × String ×
      String × String × String :=
  (r.id, r.title, r.priority, r.status, r.description, r.what_happened,
   r.proximate_cause, r.how_resolved, r.next_steps, r.user_experience, r.team,
   r.customer_impact)

/-- Whether a line leaves the strptime-based date accumulator unchanged:
either no date-pattern match, or a match that fails validation. -/
def lineKeepsDate (s : String) : Bool :=
  match findDate s with
  | some (ms, ds, ys) => !(isValidDate (digitsVal ms) (digitsVal ds) (digitsVal ys))
  | none => true

/-! # Helper lemmas -/

/-- An unconditional-overwrite fold returns the value of the LAST matching
element: the first match of the reversed list. -/
theorem foldl_overwrite {α β : Type} (p : α → Bool) (v : α → β) :
    ∀ (l : List α) (d : β),
      l.foldl (fun acc x => if p x then v x else acc) d =
        ((l.reverse.find? p).map v).getD d := by
  intro l
  induction l with
  | nil => intro d; rfl
  | cons x t ih =>
    intro d
    rw [List.foldl_cons, ih, List.reverse_cons, List.find?_append]
    cases h : List.find? p t.reverse with
    | some y => simp [Option.or]
    | none => cases hp : p x <;> simp [Option.or, List.find?_cons, hp]

/-- A fold whose step fixes every element of the list returns its seed. -/
theorem foldl_fix {α β : Type} (f : β → α → β) :
    ∀ (l : List α) (d : β), (∀ x ∈ l, ∀ a, f a x = a) → l.foldl f d = d := by
  intro l
  induction l with
  | nil => intro d _; rfl
  | cons x t ih =>
    intro d h
    rw [List.foldl_cons, h x (List.mem_cons_self x t) d]
    exact ih d (fun y hy => h y (List.mem_cons_of_mem x hy))

/-- If `find?` succeeds, the filtered list starts with the found element. -/
theorem filter_take_one_of_find? {α : Type} (p : α → Bool) :
    ∀ (l : List α) (a : α), l.find? p = some a → (l.filter p).take 1 = [a] := by
  intro l
  induction l with
  | nil => intro a h; cases h
  | cons x t ih =>
    intro a h
    rw [List.find?_cons] at h
    cases hp : p x with
    | true =>
      rw [hp] at h
      simp only [Option.some.injEq] at h
      subst h
      simp [List.filter_cons, hp]
    | false =>
      rw [hp] at h
      simp [List.filter_cons, hp, ih a h]

/-- Filtering the output of the first-wins dedup for one key yields the first
input record with that key (and nothing else), unless the key was already
seen. -/
theorem dedupByGo_filter {α : Type} (key : α → String) (k : String) :
    ∀ (l : List α) (seen : List String),
      (dedupByGo key seen l).filter (fun r => decide (key r = k)) =
        if k ∈ seen then [] else (l.filter (fun r => decide (key r = k))).take 1 := by
  intro l
  induction l with
  | nil => intro seen; by_cases h : k ∈ seen <;> simp [dedupByGo, h]
  | cons x t ih =>
    intro seen
    by_cases hx : key x ∈ seen
    · rw [dedupByGo, if_pos hx, ih]
      by_cases hk : k ∈ seen
      · simp [hk]
      · have hne : ¬ (key x = k) := fun h => hk (h ▸ hx)
        simp [hk, List.filter_cons, hne]
    · rw [dedupByGo, if_neg hx]
      by_cases hxk : key x = k
      · have hk : k ∉ seen := fun h => hx (hxk ▸ h)
        have hmem : k ∈ key x :: seen := by rw [hxk]; exact List.mem_cons_self _ _
        simp [List.filter_cons, hxk, ih, hmem, hk]
      · have hiff : k ∈ key x :: seen ↔ k ∈ seen := by
          constructor
          · intro h
            rcases List.mem_cons.mp h with h | h
            · exact absurd h.symm hxk
            · exact h
          · exact List.mem_cons_of_mem _
        have hpk : decide (key x = k) = false := decide_eq_false hxk
        rw [List.filter_cons, List.filter_cons, hpk]
        simp only [Bool.false_eq_true, if_false]
        rw [ih]
        by_cases hk : k ∈ seen
        · rw [if_pos (hiff.mpr hk), if_pos hk]
        · rw [if_neg (fun h => hk (hiff.mp h)), if_neg hk]

/-- `dedupBy` keeps exactly the first record bearing each key. -/
theorem dedupBy_filter_key {α : Type} (key : α → String) (k : String) (l : List α) :
    (dedupBy key l).filter (fun r => decide (key r = k)) =
      (l.filter (fun r => decide (key r = k))).take 1 := by
  rw [dedupBy, dedupByGo_filter]
  simp

/-- With pairwise-distinct keys (and a disjoint seen set) the dedup is the
identity. -/
theorem dedupByGo_eq_self {α : Type} (key : α → String) :
    ∀ (l : List α) (seen : List String),
      (l.map key).Nodup → (∀ x ∈ l, key x ∉ seen) → dedupByGo key seen l = l := by
  intro l
  induction l with
  | nil => intro seen _ _; rfl
  | cons x t ih =>
    intro seen hnd hdisj
    rw [List.map_cons, List.nodup_cons] at hnd
    rw [dedupByGo, if_neg (hdisj x (List.mem_cons_self x t))]
    congr 1
    apply ih (key x :: seen) hnd.2
    intro y hy hmem
    rcases List.mem_cons.mp hmem with h | h
    · exact hnd.1 (List.mem_map.mpr ⟨y, hy, h⟩)
    · exact hdisj y (List.mem_cons_of_mem x hy) h

/-- Dedup never lengthens the list. -/
theorem length_dedupByGo_le {α : Type} (key : α → String) :
    ∀ (l : List α) (seen : List String), (dedupByGo key seen l).length ≤ l.length := by
  intro l
  induction l with
  | nil => intro seen; exact Nat.le_refl 0
  | cons x t ih =>
    intro seen
    rw [dedupByGo]
    by_cases hx : key x ∈ seen
    · rw [if_pos hx]
      exact Nat.le_succ_of_le (ih seen)
    · rw [if_neg hx, List.length_cons, List.length_cons]
      exact Nat.succ_le_succ (ih (key x :: seen))

/-- A repeated key (or a key already seen) makes the dedup strictly shorter. -/
theorem length_dedupByGo_lt {α : Type} (key : α → String) :
    ∀ (l : List α) (seen : List String),
      ((∃ x ∈ l, key x ∈ seen) ∨ ¬ (l.map key).Nodup) →
      (dedupByGo key seen l).length < l.length := by
  intro l
  induction l with
  | nil =>
    intro seen h
    rcases h with ⟨x, hx, _⟩ | h
    · cases hx
    · simp at h
  | cons x t ih =>
    intro seen h
    by_cases hx : key x ∈ seen
    · rw [dedupByGo, if_pos hx, List.length_cons]
      exact Nat.lt_succ_of_le (length_dedupByGo_le key t seen)
    · rw [dedupByGo, if_neg hx, List.length_cons, List.length_cons]
      apply Nat.succ_lt_succ
      apply ih (key x :: seen)
      rcases h with ⟨y, hy, hys⟩ | hnd
      · rcases List.mem_cons.mp hy with rfl | hyt
        · exact absurd hys hx
        · exact Or.inl ⟨y, hyt, List.mem_cons_of_mem _ hys⟩
      · rw [List.map_cons, List.nodup_cons] at hnd
        rcases not_and_or.mp hnd with hmem | hnd2
        · obtain ⟨y, hyt, hky⟩ := List.mem_map.mp (not_not.mp hmem)
          exact Or.inl ⟨y, hyt, by rw [hky]; exact List.mem_cons_self _ _⟩
        · exact Or.inr hnd2

/-- Dedup only looks at the keys: mapping a projection over the dedup of two
key-wise and projection-wise equal lists gives equal results. -/
theorem dedupByGo_map_congr {α β : Type} (key : α → String) (f : α → β) :
    ∀ (l1 l2 : List α) (seen : List String),
      l1.map key = l2.map key → l1.map f = l2.map f →
      (dedupByGo key seen l1).map f = (dedupByGo key seen l2).map f := by
  intro l1
  induction l1 with
  | nil =>
    intro l2 seen hk _
    cases l2 with
    | nil => rfl
    | cons y s => cases hk
  | cons x t ih =>
    intro l2 seen hk hf
    cases l2 with
    | nil => cases hk
    | cons y s =>
      simp only [List.map_cons, List.cons.injEq] at hk hf
      rw [dedupByGo, dedupByGo, hk.1]
      by_cases hm : key y ∈ seen
      · rw [if_pos hm, if_pos hm]
        exact ih s seen hk.2 hf.2
      · rw [if_neg hm, if_neg hm, List.map_cons, List.map_cons, hf.1]
        rw [ih s (key y :: seen) hk.2 hf.2]

/-- The characterization of a parse of the shape
`dedup (map build anchors)`: for an identifier whose first anchor is at line
`i`, the output holds exactly the record built at `i`. -/
theorem anchors_build_filter {α : Type} (build : Nat × String → α) (key : α → String)
    (anc : List (Nat × String)) (k : String)
    (hkey : ∀ p, key (build p) = p.2) (i : Nat)
    (hfind : anc.find? (fun p => decide (p.2 = k)) = some (i, k)) :
    (dedupBy key (anc.map build)).filter (fun r => decide (key r = k)) = [build (i, k)] := by
  rw [dedupBy_filter_key, List.filter_map]
  have hcomp : ((fun r => decide (key r = k)) ∘ build) = fun p => decide (p.2 = k) := by
    funext p
    simp [hkey]
  rw [hcomp, ← List.map_take, filter_take_one_of_find? _ _ _ hfind, List.map_cons, List.map_nil]

/-- A string starting with `W-` has that shape at the character level. -/
theorem starts_W_shape (s : String) (h : pyStarts s "W-" = true) :
    ∃ t, s.data = 'W' :: '-' :: t := by
  have h2 : ('W' :: '-' :: []) <+: s.data := by
    rw [← List.isPrefixOf_iff_prefix]
    exact h
  obtain ⟨t, ht⟩ := h2
  exact ⟨t, ht.symm⟩

/-- A string starting with `W-` does not start with `P`. -/
theorem not_starts_P_of_W (s : String) (h : pyStarts s "W-" = true) : pyStarts s "P" = false := by
  obtain ⟨t, ht⟩ := starts_W_shape s h
  unfold pyStarts
  rw [show ("P" : String).data = ['P'] from rfl, ht]
  rfl

/-- Skipping `n` lines with the cursor counter equals resuming the scan
after them. -/
theorem ssGo_skip (team prio : String) :
    ∀ (n : Nat) (rest : List String), ssGo team prio n rest = ssGo team prio 0 (rest.drop n) := by
  intro n
  induction n with
  | zero => intro rest; rw [List.drop_zero]
  | succ m ih =>
    intro rest
    cases rest with
    | nil => rfl
    | cons l t =>
      rw [ssGo, ih t, List.drop_succ_cons]

/-- The inner team loop of `_parse_text_bugs` is first-match-in-list. -/
theorem bugTeamGo_eq_find? (line cur : String) :
    ∀ l : List String, bugTeamGo line cur l = (l.find? (fun t => strContains line t)).getD cur := by
  intro l
  induction l with
  | nil => rfl
  | cons x t ih =>
    rw [bugTeamGo, List.find?_cons]
    cases hp : strContains line x with
    | true => simp
    | false => simp [ih]

/-! # Claim theorems -/

/-- C1: for the PRB parser (`_parse_text_prbs`) and the CI/LeftShift/ABS
parser (`_parse_salesforce_issues`), an anchor identifier occurring on
several lines yields at most one output record; when the identifier's first
(lowest line index) anchor occurrence is at line `i`, the output contains
exactly the record assembled from the context window of line `i` — every
field of it — so later duplicate occurrences are discarded entirely, and the
dedup compares only identifier string equality, never record content. -/
theorem c1_dedup_first_occurrence_wins (content issue_type today k : String) :
    ((((parse_salesforce_issues content issue_type today).filter
        (fun r => decide (r.work_id = k))).length ≤ 1) ∧
      ∀ i, (wAnchors (pyLines content)).find? (fun p => decide (p.2 = k)) = some (i, k) →
        (parse_salesforce_issues content issue_type today).filter
            (fun r => decide (r.work_id = k)) =
          [sfIssueAt (pyLines content) i k today]) ∧
    ((((parse_text_prbs content today).filter (fun r => decide (r.id = k))).length ≤ 1) ∧
      ∀ i, (prbAnchors (pyLines content)).find? (fun p => decide (p.2 = k)) = some (i, k) →
        (parse_text_prbs content today).filter (fun r => decide (r.id = k)) =
          [prbItemAt (pyLines content) i k today]) := by
  constructor
  · constructor
    · have h : (parse_salesforce_issues content issue_type today).filter
          (fun r => decide (r.work_id = k)) =
          (((wAnchors (pyLines content)).map
            (fun p => sfIssueAt (pyLines content) p.1 p.2 today)).filter
              (fun r => decide (r.work_id = k))).take 1 :=
        dedupBy_filter_key (fun r : SalesforceIssue => r.work_id) k _
      rw [h]
      exact List.length_take_le 1 _
    · intro i hfind
      exact anchors_build_filter (fun p => sfIssueAt (pyLines content) p.1 p.2 today)
        (fun r => r.work_id) (wAnchors (pyLines content)) k (fun _ => rfl) i hfind
  · constructor
    · have h : (parse_text_prbs content today).filter (fun r => decide (r.id = k)) =
          (((prbAnchors (pyLines content)).map
            (fun p => prbItemAt (pyLines content) p.1 p.2 today)).filter
              (fun r => decide (r.id = k))).take 1 :=
        dedupBy_filter_key (fun r : PRBItem => r.id) k _
      rw [h]
      exact List.length_take_le 1 _
    · intro i hfind
      exact anchors_build_filter (fun p => prbItemAt (pyLines content) p.1 p.2 today)
        (fun r => r.id) (prbAnchors (pyLines content)) k (fun _ => rfl) i hfind

/-- Witness for C1 at concrete duplicated anchors: in a Salesforce export the
identifier `W-11111111` occurs on lines 0 and 2, and the unique output record
is the one built at line 0; likewise for a PRB document with `PRB-1234567`
on lines 0 and 2. -/
theorem c1_dedup_first_occurrence_wins_witness :
    (parse_salesforce_issues "W-11111111\nx\nW-11111111" "CI" "2024-01-01").filter
        (fun r => decide (r.work_id = "W-11111111")) =
      [sfIssueAt (pyLines "W-11111111\nx\nW-11111111") 0 "W-11111111" "2024-01-01"] ∧
    (parse_text_prbs "PRB-1234567\nOpen\nPRB-1234567\nResolved" "2024-01-01").filter
        (fun r => decide (r.id = "PRB-1234567")) =
      [prbItemAt (pyLines "PRB-1234567\nOpen\nPRB-1234567\nResolved") 0 "PRB-1234567"
        "2024-01-01"] :=
  ⟨(c1_dedup_first_occurrence_wins "W-11111111\nx\nW-11111111" "CI" "2024-01-01"
      "W-11111111").1.2 0 (by decide),
   (c1_dedup_first_occurrence_wins "PRB-1234567\nOpen\nPRB-1234567\nResolved" "unused"
      "2024-01-01" "PRB-1234567").2.2 0 (by decide)⟩

/-- C2: `_parse_text_bugs` caps at 30 assembled entries BEFORE the dedup: the
parse equals dedup applied to the first 30 assembled bugs; with at least 30
anchors and pairwise-distinct identifiers among the first 30, exactly 30
records result; with a repeated identifier among the first 30, strictly
fewer than 30 result. -/
theorem c2_bug_cap_before_dedup (content today : String) :
    parse_text_bugs content today =
      dedupBy (fun b => b.id) ((pre_text_bugs content today).take 30) ∧
    (30 ≤ (pre_text_bugs content today).length →
      ((((pre_text_bugs content today).take 30).map (fun b => b.id)).Nodup →
        (parse_text_bugs content today).length = 30) ∧
      (¬ (((pre_text_bugs content today).take 30).map (fun b => b.id)).Nodup →
        (parse_text_bugs content today).length < 30)) := by
  refine ⟨rfl, fun hlen => ⟨fun hnd => ?_, fun hnd => ?_⟩⟩
  · have h30 : ((pre_text_bugs content today).take 30).length = 30 := by
      rw [List.length_take]
      exact Nat.min_eq_left hlen
    have hself := dedupByGo_eq_self (fun b : BugItem => b.id)
      ((pre_text_bugs content today).take 30) [] hnd (by intro x _ h; cases h)
    have hp : parse_text_bugs content today =
        dedupByGo (fun b => b.id) [] ((pre_text_bugs content today).take 30) := rfl
    rw [hp, hself, h30]
  · have h30 : ((pre_text_bugs content today).take 30).length = 30 := by
      rw [List.length_take]
      exact Nat.min_eq_left hlen
    have hlt := length_dedupByGo_lt (fun b : BugItem => b.id)
      ((pre_text_bugs content today).take 30) [] (Or.inr hnd)
    have hp : parse_text_bugs content today =
        dedupByGo (fun b => b.id) [] ((pre_text_bugs content today).take 30) := rfl
    rw [hp]
    rw [h30] at hlt
    exact hlt

/-- Witness for C2: a document with 31 distinct `W-` anchors yields exactly
30 bugs; the same document with a duplicate inside the first 30 anchors
yields fewer than 30. -/
theorem c2_bug_cap_before_dedup_witness :
    (parse_text_bugs
      "W-10000000\nW-10000001\nW-10000002\nW-10000003\nW-10000004\nW-10000005\nW-10000006\nW-10000007\nW-10000008\nW-10000009\nW-10000010\nW-10000011\nW-10000012\nW-10000013\nW-10000014\nW-10000015\nW-10000016\nW-10000017\nW-10000018\nW-10000019\nW-10000020\nW-10000021\nW-10000022\nW-10000023\nW-10000024\nW-10000025\nW-10000026\nW-10000027\nW-10000028\nW-10000029\nW-10000030"
      "2024-01-01").length = 30 ∧
    (parse_text_bugs
      "W-10000000\nW-10000000\nW-10000002\nW-10000003\nW-10000004\nW-10000005\nW-10000006\nW-10000007\nW-10000008\nW-10000009\nW-10000010\nW-10000011\nW-10000012\nW-10000013\nW-10000014\nW-10000015\nW-10000016\nW-10000017\nW-10000018\nW-10000019\nW-10000020\nW-10000021\nW-10000022\nW-10000023\nW-10000024\nW-10000025\nW-10000026\nW-10000027\nW-10000028\nW-10000029\nW-10000030"
      "2024-01-01").length < 30 :=
  ⟨((c2_bug_cap_before_dedup
      "W-10000000\nW-10000001\nW-10000002\nW-10000003\nW-10000004\nW-10000005\nW-10000006\nW-10000007\nW-10000008\nW-10000009\nW-10000010\nW-10000011\nW-10000012\nW-10000013\nW-10000014\nW-10000015\nW-10000016\nW-10000017\nW-10000018\nW-10000019\nW-10000020\nW-10000021\nW-10000022\nW-10000023\nW-10000024\nW-10000025\nW-10000026\nW-10000027\nW-10000028\nW-10000029\nW-10000030"
      "2024-01-01").2 (by decide)).1 (by decide),
   ((c2_bug_cap_before_dedup
      "W-10000000\nW-10000000\nW-10000002\nW-10000003\nW-10000004\nW-10000005\nW-10000006\nW-10000007\nW-10000008\nW-10000009\nW-10000010\nW-10000011\nW-10000012\nW-10000013\nW-10000014\nW-10000015\nW-10000016\nW-10000017\nW-10000018\nW-10000019\nW-10000020\nW-10000021\nW-10000022\nW-10000023\nW-10000024\nW-10000025\nW-10000026\nW-10000027\nW-10000028\nW-10000029\nW-10000030"
      "2024-01-01").2 (by decide)).2 (by decide)⟩

/-- C7: the window bounds used by the parsers equal `max(0, i - before)` and
`min(len, i + after)`, lie within `[0, len]`, and every index scanned by the
window is a valid line index. -/
theorem c7_window_bounds (len i before after : Nat) (h : i < len) :
    (ctxStart i before : ℤ) = max 0 ((i : ℤ) - (before : ℤ)) ∧
    (ctxEnd len i after : ℤ) = min (len : ℤ) ((i : ℤ) + (after : ℤ)) ∧
    ctxStart i before ≤ len ∧ ctxEnd len i after ≤ len ∧
    ∀ j ∈ winRange (ctxStart i before) (ctxEnd len i after), j < len := by
  refine ⟨?_, ?_, ?_, ?_, ?_⟩
  · unfold ctxStart
    omega
  · unfold ctxEnd
    omega
  · unfold ctxStart
    omega
  · unfold ctxEnd
    omega
  · intro j hj
    rw [winRange, List.mem_range'_1] at hj
    unfold ctxStart ctxEnd at hj
    omega

/-- Witness for C7 at a concrete anchor position. -/
theorem c7_window_bounds_witness :
    (ctxStart 2 15 : ℤ) = max 0 ((2 : ℤ) - (15 : ℤ)) ∧
    (ctxEnd 7 2 10 : ℤ) = min (7 : ℤ) ((2 : ℤ) + (10 : ℤ)) ∧
    ctxStart 2 15 ≤ 7 ∧ ctxEnd 7 2 10 ≤ 7 ∧
    ∀ j ∈ winRange (ctxStart 2 15) (ctxEnd 7 2 10), j < 7 :=
  c7_window_bounds 7 2 15 10 (by decide)

/-- C9 (amended): extraction is a deterministic function of the input text
and the run date: every field except the defaulted created date is a
function of the text alone, for both cited parsers. -/
theorem c9_amended_determinism_up_to_run_date (content issue_type t1 t2 : String) :
    (parse_salesforce_issues content issue_type t1).map sfShape =
      (parse_salesforce_issues content issue_type t2).map sfShape ∧
    (parse_text_prbs content t1).map prbShape = (parse_text_prbs content t2).map prbShape := by
  constructor
  · have hk : (pre_salesforce_issues content t1).map (fun r => r.work_id) =
        (pre_salesforce_issues content t2).map (fun r => r.work_id) := by
      simp only [pre_salesforce_issues, List.map_map]
      rfl
    have hf : (pre_salesforce_issues content t1).map sfShape =
        (pre_salesforce_issues content t2).map sfShape := by
      simp only [pre_salesforce_issues, List.map_map]
      rfl
    exact dedupByGo_map_congr (fun r => r.work_id) sfShape
      (pre_salesforce_issues content t1) (pre_salesforce_issues content t2) [] hk hf
  · have hk : (pre_text_prbs content t1).map (fun r => r.id) =
        (pre_text_prbs content t2).map (fun r => r.id) := by
      simp only [pre_text_prbs, List.map_map]
      rfl
    have hf : (pre_text_prbs content t1).map prbShape =
        (pre_text_prbs content t2).map prbShape := by
      simp only [pre_text_prbs, List.map_map]
      rfl
    exact dedupByGo_map_congr (fun r => r.id) prbShape
      (pre_text_prbs content t1) (pre_text_prbs content t2) [] hk hf

/-- C9 counterexample: the parse is NOT a function of the input text alone —
on a document whose anchor has no date line in its window, the defaulted
created date is the run date, so two runs on different dates differ. -/
theorem c9_counterexample_run_date_leaks :
    parse_salesforce_issues "W-12345678" "CI" "2024-01-01" ≠
      parse_salesforce_issues "W-12345678" "CI" "2024-01-02" := by
  decide

/-- C3: in `_parse_ss_security_bugs`, the document with header line
`Sayonara Data Management(7)`, then `P2(7)`, then anchor `W-00000001` yields
exactly the record stamped from the running state (team
`Sayonara Data Management`, priority tier `P2`, its stored label
`P2-Medium`); and in general the record emitted for an anchor line is fully
determined by the running state at the moment of encounter, the anchor line
and the four following lines — so header-shaped lines occurring later never
change records already emitted. -/
theorem c3_section_state_stamping :
    (parse_ss_security_bugs "Sayonara Data Management(7)\nP2(7)\nW-00000001" =
        [ssRecordAt "Sayonara Data Management" "P2" "W-00000001" []] ∧
      (parse_ss_security_bugs "Sayonara Data Management(7)\nP2(7)\nW-00000001").map
          (fun r => (r.component, r.priority)) =
        [("Sayonara Data Management", "P2-Medium")]) ∧
    ∀ (l : String) (rest rest' : List String) (team prio : String),
      pyStarts (pyStrip l) "W-" = true →
      rest.take 4 = rest'.take 4 →
      (ssGo team prio 0 (l :: rest)).head? =
          some (ssRecordAt team prio (pyStrip l) (rest.take 4)) ∧
        (ssGo team prio 0 (l :: rest)).head? = (ssGo team prio 0 (l :: rest')).head? := by
  constructor
  · exact ⟨by decide, by decide⟩
  · intro l rest rest' team prio hW htake
    have h1 : pyStarts (pyStrip l) "P" = false := not_starts_P_of_W _ hW
    have hstep : ∀ (r : List String), (ssGo team prio 0 (l :: r)).head? =
        some (ssRecordAt team prio (pyStrip l) (r.take 4)) := by
      intro r
      rw [ssGo]
      simp [h1, hW]
    exact ⟨hstep rest, by rw [hstep rest, hstep rest', htake]⟩

/-- Witness for C3: two documents that agree on the anchor line and the four
lines after it, but end differently (the second ends with a different header
line and an extra line), produce the same first record. -/
theorem c3_section_state_stamping_witness :
    (ssGo "Unknown" "P4" 0 ["W-00000001", "a", "b", "c", "d", "P0(1)"]).head? =
        some (ssRecordAt "Unknown" "P4" "W-00000001"
          (["a", "b", "c", "d", "P0(1)"].take 4)) ∧
      (ssGo "Unknown" "P4" 0 ["W-00000001", "a", "b", "c", "d", "P0(1)"]).head? =
        (ssGo "Unknown" "P4" 0 ["W-00000001", "a", "b", "c", "d", "Zed Team(9)", "x"]).head? :=
  c3_section_state_stamping.2 "W-00000001" ["a", "b", "c", "d", "P0(1)"]
    ["a", "b", "c", "d", "Zed Team(9)", "x"] "Unknown" "P4" (by decide) (by decide)

/-- C10: `_parse_ss_security_bugs` performs no deduplication: every anchor
line the scan encounters emits exactly one record (the four lines after it
consumed as its positional fields and skipped by the cursor), and a work
identifier appearing on two anchor lines yields two records. -/
theorem c10_ss_no_dedup :
    (∀ (l : String) (rest : List String) (team prio : String),
      pyStarts (pyStrip l) "W-" = true →
      ssGo team prio 0 (l :: rest) =
        ssRecordAt team prio (pyStrip l) (rest.take 4) :: ssGo team prio 0 (rest.drop 4)) ∧
    ((parse_ss_security_bugs "W-00000001\na\nb\nc\nd\nW-00000001").map (fun r => r.id) =
        ["W-00000001", "W-00000001"] ∧
      (parse_ss_security_bugs "W-00000001\na\nb\nc\nd\nW-00000001").length = 2) := by
  constructor
  · intro l rest team prio hW
    have h1 : pyStarts (pyStrip l) "P" = false := not_starts_P_of_W _ hW
    rw [ssGo]
    simp only [h1, hW, Bool.false_and, Bool.not_true, Bool.and_false, Bool.false_eq_true,
      if_false, if_true]
    rw [ssGo_skip team prio 4 rest]
  · exact ⟨by decide, by decide⟩

/-- Witness for C10 at a concrete anchor with a short tail. -/
theorem c10_ss_no_dedup_witness :
    ssGo "T" "P3" 0 ["W-00000002", "v1", "alice bob"] =
      ssRecordAt "T" "P3" "W-00000002" (["v1", "alice bob"].take 4) ::
        ssGo "T" "P3" 0 (["v1", "alice bob"].drop 4) :=
  c10_ss_no_dedup.1 "W-00000002" ["v1", "alice bob"] "T" "P3" (by decide)

/-- C4 counterexample: the PRB priority is NOT a forward last-match-wins scan
over the context window: with a parenthesized tier on the line before the
anchor and a bare tier later in the window, the parser returns the
parenthesized tier's label while the spec's window scan would return the
bare tier's label. -/
theorem c4_counterexample_window_scan :
    ((parse_text_prbs "P1(3)\nPRB-1234567\nP2" "2024-01-01").map (fun r => r.priority) =
      ["P1-High"]) ∧
    specPrbPriorityScan (pyLines "P1(3)\nPRB-1234567\nP2") 1 = "P2-Medium" ∧
    ("P1-High" : String) ≠ "P2-Medium" :=
  ⟨by decide, by decide, by decide⟩

/-- C4 (amended): the PRB priority is computed solely from the stripped line
directly before the anchor — two documents agreeing on that line get the
same priority whatever the rest of the window holds; the record stores
exactly that classification; and on that single line the bare-token check
runs after (and overwrites) the parenthesized check. -/
theorem c4_amended_priority_single_line (lines lines' : List String) (i : Nat)
    (hi : 0 < i)
    (hsame : pyStrip (lines.getD (i - 1) "") = pyStrip (lines'.getD (i - 1) "")) :
    prbPriorityAt lines i = prbPriorityAt lines' i ∧
    (∀ pid today, (prbItemAt lines i pid today).priority = prbPriorityAt lines i) ∧
    (pyStrip (lines.getD (i - 1) "") ∈ (["P0", "P1", "P2", "P3", "P4"] : List String) →
      prbPriorityAt lines i =
        tierUpd (match findPTier (pyStrip (lines.getD (i - 1) "")) with
                 | some d => tierUpd "Medium" d
                 | none => "Medium") ((pyStrip (lines.getD (i - 1) "")).data.getD 1 ' ')) := by
  refine ⟨?_, fun pid today => rfl, ?_⟩
  · unfold prbPriorityAt
    rw [hsame]
  · intro hmem
    have h0 : (0 < i) = True := eq_true hi
    simp only [prbPriorityAt, h0, if_true]
    rw [if_pos hmem]

/-- Witness for C4 (amended): two documents sharing only the pre-anchor line
`P1(3)` classify identically. -/
theorem c4_amended_priority_single_line_witness :
    prbPriorityAt ["junk", "P1(3)", "PRB-1234567", "P3"] 2 =
      prbPriorityAt ["other", "P1(3)", "PRB-9999999"] 2 :=
  (c4_amended_priority_single_line ["junk", "P1(3)", "PRB-1234567", "P3"]
    ["other", "P1(3)", "PRB-9999999"] 2 (by decide) (by decide)).1

/-- C5 counterexample: in `_parse_salesforce_issues` the team loop does not
break, so on a window line containing two enumerated team names the LAST
matching name in the enumeration is assigned, not the first. -/
theorem c5_counterexample_list_order :
    ((parse_salesforce_issues
        "W-12345678\nSayonara Data Management and Sayonara Foundation Services" "CI"
        "2024-01-01").map (fun r => r.team) = ["Sayonara Foundation Services"]) ∧
    specSfTeamFirstInList
        (pyLines "W-12345678\nSayonara Data Management and Sayonara Foundation Services") 0 =
      "Sayonara Data Management" ∧
    ("Sayonara Foundation Services" : String) ≠ "Sayonara Data Management" :=
  ⟨by decide, by decide, by decide⟩

/-- C5 (amended): the per-line team classification of
`_parse_salesforce_issues` returns the LAST enumerated name contained in the
line (first match of the reversed enumeration), while `_parse_text_bugs`
(whose loop breaks) returns the FIRST enumerated name contained in the line;
in both, later matching window lines overwrite earlier ones. -/
theorem c5_amended_team_iteration_order (cur line : String) :
    sfTeamUpd cur line =
      ((sf_team_patterns.reverse.find? (fun t => strContains line t)).getD cur) ∧
    bugTeamUpd cur line =
      ((bug_team_patterns.find? (fun t => strContains line t)).getD cur) := by
  constructor
  · refine Eq.trans (foldl_overwrite (fun t => strContains line t) (fun t => t)
      sf_team_patterns cur) ?_
    cases sf_team_patterns.reverse.find? (fun t => strContains line t) <;> rfl
  · exact bugTeamGo_eq_find? line cur bug_team_patterns

/-- C6 counterexample: both `John Smith` (line 1) and `Jane Doe` (line 2)
qualify as person-name lines after the anchor at line 0, yet
`_parse_security_issues` assigns the LAST qualifying line, not the first. -/
theorem c6_counterexample_assignee_last_wins :
    specNameLine 0 1 "John Smith" = true ∧ specNameLine 0 2 "Jane Doe" = true ∧
    ((parse_security_issues "W-12345678\nJohn Smith\nJane Doe").map (fun r => r.assigned_to) =
      ["Jane Doe"]) ∧
    ("Jane Doe" : String) ≠ "John Smith" :=
  ⟨by decide, by decide, by decide, by decide⟩

/-- C6 (amended): among the qualifying lines of the window the LAST one wins
(the loops overwrite without breaking), where the code's qualifying
predicates extend the spec's: `_parse_security_issues` also requires length
above 5, not the literal `New`, and no `sdb.` lead; `_parse_text_bugs`
requires the line to lie more than two lines after the anchor and excludes
`-`. -/
theorem c6_amended_assignee_last_qualifying (lines : List String) (i : Nat) :
    secAssigneeAt lines i =
      (((winRange (ctxStart i 5) (ctxEnd lines.length i 8)).reverse.find?
          (fun j => secAsgQual i j (pyStrip (lines.getD j "")))).map
        (fun j => pyStrip (lines.getD j ""))).getD "Unassigned" ∧
    bugAssigneeAt lines i =
      (((winRange (ctxStart i 3) (ctxEnd lines.length i 8)).reverse.find?
          (fun j => bugAsgQual i j (pyStrip (lines.getD j "")))).map
        (fun j => pyStrip (lines.getD j ""))).getD "Unknown" :=
  ⟨foldl_overwrite _ _ _ _, foldl_overwrite _ _ _ _⟩

/-- C8 counterexample: a context line matching the date pattern but not
converting to a valid date (`13/45/2024`) is NOT silently ignored by
`_parse_salesforce_issues` — its conversion cannot fail, and the record's
created date becomes `2024-13-45` instead of keeping the run-date default. -/
theorem c8_counterexample_invalid_date_written :
    findDate "13/45/2024" = some (['1', '3'], ['4', '5'], ['2', '0', '2', '4']) ∧
    isValidDate 13 45 2024 = false ∧
    ((parse_salesforce_issues "W-12345678\n13/45/2024" "CI" "2099-12-31").map
      (fun r => r.created_date) = ["2024-13-45"]) ∧
    ("2024-13-45" : String) ≠ "2099-12-31" :=
  ⟨by decide, by decide, by decide, by decide⟩

/-- C8 (amended): in `_parse_text_prbs` (and `_parse_text_bugs`, which share
the strptime step) a pattern match that fails date validation keeps the
accumulator — and a whole window of such lines leaves the created date at
its run-date default; in `_parse_salesforce_issues` the matched text is
written unconditionally, zero-padded, valid or not.  No step can raise. -/
theorem c8_amended_date_error_handling :
    (∀ (cur line : String) (ms ds ys : List Char),
      findDate line = some (ms, ds, ys) →
      isValidDate (digitsVal ms) (digitsVal ds) (digitsVal ys) = false →
      prbDateUpd cur line = cur) ∧
    (∀ (cur line : String) (ms ds ys : List Char),
      findDate line = some (ms, ds, ys) →
      sfDateUpd cur line =
        String.mk ys ++ "-" ++ zfill2 (String.mk ms) ++ "-" ++ zfill2 (String.mk ds)) ∧
    (∀ (lines : List String) (i : Nat) (pid today : String),
      (∀ j ∈ winRange (ctxStart i 5) (ctxEnd lines.length i 50),
        lineKeepsDate (pyStrip (lines.getD j "")) = true) →
      (prbItemAt lines i pid today).created_date = today) := by
  refine ⟨?_, ?_, ?_⟩
  · intro cur line ms ds ys hfind hval
    simp [prbDateUpd, hfind, hval]
  · intro cur line ms ds ys hfind
    simp [sfDateUpd, hfind]
  · intro lines i pid today hkeep
    show prbCreatedAt lines i today = today
    apply foldl_fix
    intro j hj a
    have hk := hkeep j hj
    unfold prbDateUpd
    cases hfd : findDate (pyStrip (lines.getD j "")) with
    | none => rfl
    | some t =>
      obtain ⟨ms, ds, ys⟩ := t
      simp only [lineKeepsDate, hfd, Bool.not_eq_true'] at hk
      simp [hk]

/-- Witness for C8 (amended) at the invalid date `13/45/2024`: the strptime
step keeps the accumulator, the split-and-pad step writes `2024-13-45`, and
a PRB whose window holds only that line keeps the run-date default. -/
theorem c8_amended_date_error_handling_witness :
    prbDateUpd "KEEP" "13/45/2024" = "KEEP" ∧
    sfDateUpd "KEEP" "13/45/2024" =
      String.mk ['2', '0', '2', '4'] ++ "-" ++ zfill2 (String.mk ['1', '3']) ++ "-" ++
        zfill2 (String.mk ['4', '5']) ∧
    (prbItemAt ["PRB-1234567", "13/45/2024"] 0 "PRB-1234567" "2024-06-30").created_date =
      "2024-06-30" :=
  ⟨c8_amended_date_error_handling.1 "KEEP" "13/45/2024" ['1', '3'] ['4', '5']
      ['2', '0', '2', '4'] (by decide) (by decide),
   c8_amended_date_error_handling.2.1 "KEEP" "13/45/2024" ['1', '3'] ['4', '5']
      ['2', '0', '2', '4'] (by decide),
   c8_amended_date_error_handling.2.2 ["PRB-1234567", "13/45/2024"] 0 "PRB-1234567"
      "2024-06-30" (by decide)⟩

end QR
